import Mathlib

/-!
Shallow embedding of `freddiefujiwara/html2pptx` (`src/index.js`) and proofs
about its natural-language specification.

The repository is a small pipeline: URL resolution (`isHttpUrl`, `toPageUrl`),
headless-browser capture (`renderToPng`), error translation (`formatError`),
slide packaging (`pngToPptx`) and a command entry point (`main`).  Pure
functions become Lean functions; the effectful capture and packaging steps are
embedded as functions from an explicit environment (the outcomes of the
external browser / library calls) to a result together with the list of
external calls made, in order.  External collaborators (the WHATWG URL parser,
the Node `path` / `url` helpers, playwright, pptxgenjs) are modelled at the
fidelity with which the code uses them; each model notes its origin.

String primitives are implemented over `List Char` so that every definition
evaluates by kernel reduction on concrete inputs.
-/

/-! ### String primitives (kernel-reducible counterparts of the JS ones) -/

/-- The prefix test `needle.isPrefixOf hay` lifted to an infix test: JavaScript
`hay.includes(needle)`. -/
def listInfix (needle : List Char) : List Char → Bool
  | [] => needle.isEmpty
  | c :: t => needle.isPrefixOf (c :: t) || listInfix needle t

/-- JavaScript `hay.includes(needle)`. -/
def strIncludes (hay needle : String) : Bool :=
  listInfix needle.data hay.data

/-- JavaScript `s.startsWith(p)`. -/
def strStartsWith (s p : String) : Bool :=
  p.data.isPrefixOf s.data

/-- JavaScript `s.endsWith(p)`. -/
def strEndsWith (s p : String) : Bool :=
  p.data.reverse.isPrefixOf s.data.reverse

/-- JavaScript `s.toLowerCase()` (ASCII fidelity). -/
def strToLower (s : String) : String :=
  String.mk (s.data.map Char.toLower)

/-- JavaScript `s.substring(n)` / Lean `drop`. -/
def strDrop (s : String) (n : Nat) : String :=
  String.mk (s.data.drop n)

/-- Drop the last `n` characters. -/
def strDropRight (s : String) (n : Nat) : String :=
  String.mk (s.data.take (s.data.length - n))

/-- JavaScript `s.trim()`: strip whitespace from both ends. -/
def strTrim (s : String) : String :=
  let l := s.data.dropWhile Char.isWhitespace
  String.mk (l.reverse.dropWhile Char.isWhitespace).reverse

/-- Capitalize the first character:
JavaScript `s.charAt(0).toUpperCase() + s.slice(1)`. -/
def capitalizeFirst (s : String) : String :=
  match s.data with
  | [] => ""
  | c :: rest => String.mk (c.toUpper :: rest)

/-! ### URL Resolver (`isHttpUrl`, `toPageUrl`, `src/index.js:12-26`) -/

/-- A parsed-URL record; the code (`src/index.js:14`) only reads `protocol`
(the lowercased scheme followed by a colon). -/
structure URLRec where
  protocol : String
deriving DecidableEq, Repr

/-- Scheme characters after the first: ASCII letters, digits, `+`, `-`, `.`
(WHATWG URL grammar). -/
def isSchemeChar (c : Char) : Bool :=
  c.isAlpha || c.isDigit || c = '+' || c = '-' || c = '.'

/-- Split a leading `scheme:` off a character list: the maximal run of scheme
characters, which must be nonempty, start with a letter and be followed by a
colon.  Returns the scheme and the remainder after the colon. -/
def splitScheme (s : List Char) : Option (List Char × List Char) :=
  let pre := s.takeWhile isSchemeChar
  let rest := s.drop pre.length
  match pre, rest with
  | c :: _, ':' :: r => if c.isAlpha then some (pre, r) else none
  | _, _ => none

/-- The special schemes that require a nonempty host (WHATWG; `file` is left
out because a `file:` URL may have an empty host). -/
def specialSchemes : List String := ["http", "https", "ws", "wss", "ftp"]

/-- After the scheme of a special-scheme URL: skip slashes (and backslashes,
which WHATWG treats like slashes here), then the host runs until `/`, `?`,
`#` or the port colon; it must be nonempty. -/
def hostNonempty (rest : List Char) : Bool :=
  let r := rest.dropWhile (fun c => c = '/' || c = '\\')
  let host := r.takeWhile (fun c => !(c = '/' || c = '?' || c = '#' || c = ':'))
  !host.isEmpty

/-- Modelled from the external WHATWG URL parser (`new URL(s)` at
`src/index.js:14`), at the fidelity the code uses it: surrounding whitespace
is stripped; an absolute URL needs a `scheme:` prefix; the scheme is
lowercased into `protocol` with its trailing colon; special schemes further
require a nonempty host; other schemes parse unconditionally.  `none` is the
constructor throwing. -/
def parseURL (s : String) : Option URLRec :=
  match splitScheme (strTrim s).data with
  | none => none
  | some (sch, rest) =>
    let schL := String.mk (sch.map Char.toLower)
    if specialSchemes.contains schL then
      if hostNonempty rest then some ⟨schL ++ ":"⟩ else none
    else some ⟨schL ++ ":"⟩

/-- The classifier `isHttpUrl` (`src/index.js:12-19`): `new URL(s)` in a `try`, returning
whether the protocol is `http:` or `https:`; any parse throw is caught and
yields `false`. -/
def isHttpUrl (s : String) : Bool :=
  match parseURL s with
  | some u => u.protocol = "http:" || u.protocol = "https:"
  | none => false

/-- JavaScript coerces a non-string argument of `new URL` to a string;
`null` becomes the string `"null"`.  `none` models passing `null`. -/
def jsStringArg : Option String → String
  | some s => s
  | none => "null"

/-- Application of `isHttpUrl` to a possibly-`null` JavaScript value. -/
def isHttpUrlNullable (s : Option String) : Bool :=
  isHttpUrl (jsStringArg s)

/-- Modelled from the external Node `path.resolve` (`src/index.js:23,96,97`)
at the fidelity the code uses it: an already-absolute path is returned as is,
a relative one is made absolute against the current working directory
(`.`/`..` normalisation elided — no claim depends on it). -/
def pathResolve (cwd input : String) : String :=
  if strStartsWith input "/" then input else cwd ++ "/" ++ input

/-- Modelled from the external Node `url.pathToFileURL(p).toString()`
(`src/index.js:25`): a `file://` URI built from the absolute path
(percent-encoding of special characters elided — the claims depend only on
the prefix and on which path the URI is built from). -/
def pathToFileURL (p : String) : String := "file://" ++ p

/-- A thrown JavaScript error value, with the fields the code reads:
`message`, `name`, `code`, and its `String(err)` rendering (used when
`message` is falsy, i.e. empty). -/
structure JsError where
  message : String
  name : String
  code : Option String
  strRep : String
deriving DecidableEq, Repr

/-- Model of `new Error(msg)`: name `"Error"`, no `code`, `String(err)` rendering
`"Error: " ++ msg`. -/
def mkError (msg : String) : JsError :=
  ⟨msg, "Error", none, "Error: " ++ msg⟩

/-- The resolver `toPageUrl` (`src/index.js:21-26`): an http(s) URL is returned unchanged;
otherwise the input is resolved to an absolute path, the injected filesystem
probe `_fs.existsSync` is consulted, and the result is a `file://` URI, or a
thrown `HTML file not found: <path>` error when the probe says the path is
absent. -/
def toPageUrl (input : String) (fsExistsSync : String → Bool) (cwd : String) :
    Except JsError String :=
  if isHttpUrl input then .ok input
  else
    let p := pathResolve cwd input
    if !fsExistsSync p then .error (mkError ("HTML file not found: " ++ p))
    else .ok (pathToFileURL p)

example : isHttpUrl "http://example.com" = true := by decide
example : isHttpUrl "https://example.com" = true := by decide
example : isHttpUrl "file://test" = false := by decide
example : isHttpUrlNullable none = false := by decide
example : isHttpUrl "ftp://example.com" = false := by decide
example : isHttpUrl "http://" = false := by decide
example : isHttpUrl "HTTPS://Example.Com/x" = true := by decide
example : isHttpUrl "not a url" = false := by decide
example : toPageUrl "a.html" (fun _ => true) "/w" = .ok "file:///w/a.html" := by rfl
example : toPageUrl "http://example.com" (fun _ => false) "/w" = .ok "http://example.com" := by rfl

/-! ### Page Capture (`renderToPng`, `src/index.js:28-46`) -/

/-- One external browser call, in the order the code makes them.  `close` is
`browser.close()`; `screenshotFirst` is `loc.first().screenshot({path})`;
`screenshotFullPage` is `page.screenshot({path, fullPage: true})`. -/
inductive CapEvent where
  | launch
  | newPage (width height scale : Int)
  | goto (url waitUntil : String) (timeout : Nat)
  | waitForTimeout (ms : Nat)
  | locatorCount (sel : String)
  | screenshotFirst (sel path : String)
  | screenshotFullPage (path : String)
  | close
deriving DecidableEq, Repr

/-- The destructured argument of `renderToPng` (`src/index.js:28`); `selector`
is `null` (`none`) or a string, `waitUntil` is `""` for a falsy value. -/
structure CaptureRequest where
  pageUrl : String
  pngPath : String
  selector : Option String
  width : Int
  height : Int
  scale : Int
  timeout : Nat
  waitUntil : String
deriving Repr

/-- The outcomes the external browser (playwright) hands back to the code, one
field per await that can reject; `locatorCount` is `loc.count()` per
selector.  `browser.close()` is modelled as always resolving. -/
structure CaptureEnv where
  launchResult : Except JsError Unit
  newPageResult : Except JsError Unit
  gotoResult : Except JsError Unit
  locatorCount : String → Nat
  firstShotResult : Except JsError Unit
  fullShotResult : Except JsError Unit

/-- Effective wait strategy, `waitUntil || "networkidle"` (`src/index.js:33`). -/
def effWaitUntil (w : String) : String := if w = "" then "networkidle" else w

/-- Effective timeout, `timeout || 30000` (`src/index.js:33`). -/
def effTimeout (t : Nat) : Nat := if t = 0 then 30000 else t

/-- The full-page branch (`src/index.js:41`). -/
def renderFullPage (req : CaptureRequest) (env : CaptureEnv) (evs : List CapEvent) :
    Except JsError Unit × List CapEvent :=
  (env.fullShotResult, evs ++ [CapEvent.screenshotFullPage req.pngPath])

/-- The body of the `try` block (`src/index.js:33-42`): navigate, settle
800ms, then either the selector branch (count, `Selector not found` throw on
zero, first-element screenshot) or the full-page screenshot.  JavaScript
truthiness: a `null` or empty-string selector takes the full-page branch. -/
def renderTryBody (req : CaptureRequest) (env : CaptureEnv) :
    Except JsError Unit × List CapEvent :=
  let gotoEv := CapEvent.goto req.pageUrl (effWaitUntil req.waitUntil) (effTimeout req.timeout)
  match env.gotoResult with
  | .error e => (.error e, [gotoEv])
  | .ok _ =>
    let evs := [gotoEv, CapEvent.waitForTimeout 800]
    match req.selector with
    | none => renderFullPage req env evs
    | some sel =>
      if sel = "" then renderFullPage req env evs
      else
        let evs := evs ++ [CapEvent.locatorCount sel]
        if env.locatorCount sel = 0 then
          (.error (mkError ("Selector not found: " ++ sel)), evs)
        else
          (env.firstShotResult, evs ++ [CapEvent.screenshotFirst sel req.pngPath])

/-- The capture step `renderToPng` (`src/index.js:28-46`): launch, then `newPage` — both
before the `try`, so their rejections propagate without running the
`finally` — then the `try` body with `browser.close()` in the `finally`.
Returns the settled result and the ordered list of external calls made. -/
def renderToPng (req : CaptureRequest) (env : CaptureEnv) :
    Except JsError Unit × List CapEvent :=
  match env.launchResult with
  | .error e => (.error e, [])
  | .ok _ =>
    match env.newPageResult with
    | .error e => (.error e, [CapEvent.launch])
    | .ok _ =>
      let body := renderTryBody req env
      (body.1,
       [CapEvent.launch, CapEvent.newPage req.width req.height req.scale]
         ++ body.2 ++ [CapEvent.close])

/-- The events that write the image file (either screenshot call). -/
def isScreenshotEvent : CapEvent → Bool
  | .screenshotFirst _ _ => true
  | .screenshotFullPage _ => true
  | _ => false

/-! ### Error Translator (`formatError`, `src/index.js:48-66`) -/

/-- Effective message, `err.message || String(err)` (`src/index.js:49`): the `message` field, or
the string rendering of the error when `message` is falsy (empty). -/
def effMessage (e : JsError) : String :=
  if e.message = "" then e.strRep else e.message

/-- The translator `formatError` (`src/index.js:48-66`): the seven rules in order, first
match wins (`rules.find`); otherwise the fallback strips a leading
`"error: "`, capitalizes the first character and prefixes `"Error: "`. -/
def formatError (e : JsError) : String :=
  let message := effMessage e
  if strIncludes message "HTML file not found" then
    "Error: The HTML file does not exist. Please check the file path."
  else if strIncludes message "Selector not found" then
    "Error: The CSS selector was not found. Please check your --selector."
  else if e.name = "TimeoutError" then
    "Error: The page took too long to load. Please try a larger --timeout."
  else if e.code = some "ENOENT" then
    "Error: Could not save the file. Please check the folder path and your permissions."
  else if strIncludes message "net::ERR_" then
    "Error: The URL is not valid or the website could not be reached. Please check your input."
  else if strIncludes message "missing required argument 'input'" then
    "Error: Please provide an HTML file path or URL."
  else if strIncludes message "waitUntil: expected one of" then
    "Error: Invalid wait strategy. Please use one of: load, domcontentloaded, networkidle, commit."
  else
    let dm := if strStartsWith message "error: " then strDrop message 7 else message
    "Error: " ++ capitalizeFirst dm

/-! ### Slide Packager (`pngToPptx`, `src/index.js:68-76`) -/

/-- One call on the external pptxgenjs document, in order: `defineLayout`,
the `layout =` assignment, `addSlide`, `slide.addImage`, `writeFile`. -/
inductive PptxEvent where
  | defineLayout (layoutName : String) (width height : ℚ)
  | setLayout (layoutName : String)
  | addSlide
  | addImage (path : String) (x y w h : ℚ)
  | writeFile (fileName : String)
deriving DecidableEq, Repr

/-- The widescreen canvas width, 13.333 inches (`src/index.js:71,74`). -/
def widescreenWidth : ℚ := 13333 / 1000

/-- The widescreen canvas height, 7.5 inches (`src/index.js:71,74`). -/
def widescreenHeight : ℚ := 15 / 2

/-- Modelled from the external pptxgenjs library: the default layout of a new document
 is `LAYOUT_16x9`, a 10 × 5.625 inch canvas. -/
def defaultCanvasWidth : ℚ := 10

/-- Modelled from the external pptxgenjs library: the default canvas height,
5.625 inches. -/
def defaultCanvasHeight : ℚ := 45 / 8

/-- The packager `pngToPptx` (`src/index.js:68-76`) as the ordered list of calls it makes
on the pptxgenjs document: when `widescreen` (default `true`), define the
`WIDE_16x9` 13.333 × 7.5 layout and select it; then one `addSlide`, one
`addImage` at (0,0) of size 13.333 × 7.5, and `writeFile`. -/
def pngToPptx (pngPath pptxPath : String) (widescreen : Bool) : List PptxEvent :=
  (if widescreen then
    [PptxEvent.defineLayout "WIDE_16x9" widescreenWidth widescreenHeight,
     PptxEvent.setLayout "WIDE_16x9"]
   else [])
  ++ [PptxEvent.addSlide,
      PptxEvent.addImage pngPath 0 0 widescreenWidth widescreenHeight,
      PptxEvent.writeFile pptxPath]

/-- Predicate for `defineLayout` calls. -/
def isDefineLayout : PptxEvent → Bool
  | .defineLayout _ _ _ => true
  | _ => false

/-- Predicate for `addSlide` calls. -/
def isAddSlide : PptxEvent → Bool
  | .addSlide => true
  | _ => false

/-- Predicate for `addImage` calls. -/
def isAddImage : PptxEvent → Bool
  | .addImage _ _ _ _ _ => true
  | _ => false

/-! ### Command Entry Point (`main`, `src/index.js:78-114`) -/

/-- The parsed command-line options (`src/index.js:80-94`), after
parsing by commander: `out` defaults to `"slide.pptx"`, `selector` to `""`,
`png` is absent (`none`) unless given. -/
structure CliOpts where
  out : String
  png : Option String
  selector : String
  width : Int
  height : Int
  scale : Int
  timeout : Nat
  wait : String
deriving Repr

/-- The strip step `pptxPath.replace(/\.pptx$/i, "")` (`src/index.js:97`): remove one
trailing `.pptx`, case-insensitively; leave the string unchanged when it does
not end in `.pptx`. -/
def stripPptxSuffix (s : String) : String :=
  if strEndsWith (strToLower s) ".pptx" then strDropRight s 5 else s

/-- Selector normalization, `opts.selector?.trim() || null` (`src/index.js:99`): trim, and normalize
an empty result to `null` (`none`). -/
def normalizeSelector (s : String) : Option String :=
  let t := strTrim s
  if t = "" then none else some t

/-- The argument of `pngToPptx` built by `main` (`src/index.js:112`). -/
structure PackagingRequest where
  pngPath : String
  pptxPath : String
  widescreen : Bool
deriving Repr

/-- The request-building part of `main` (`src/index.js:94-112`): resolve the
output path, derive or resolve the intermediate png path (the ternary
`opts.png ? path.resolve(opts.png) : ...` at `src/index.js:97` tests
JavaScript truthiness, so an absent or empty `--png` value takes the derive
branch), resolve the page
URL via `toPageUrl` (whose throw propagates), normalize the selector, and
build the capture and packaging requests — the latter always with
`widescreen: true`. -/
def mainRequests (input : String) (opts : CliOpts) (fsExistsSync : String → Bool)
    (cwd : String) : Except JsError (CaptureRequest × PackagingRequest) :=
  let pptxPath := pathResolve cwd opts.out
  let pngPath :=
    match opts.png with
    | some p =>
      if p = "" then stripPptxSuffix pptxPath ++ ".png" else pathResolve cwd p
    | none => stripPptxSuffix pptxPath ++ ".png"
  match toPageUrl input fsExistsSync cwd with
  | .error e => .error e
  | .ok pageUrl =>
    .ok ({ pageUrl := pageUrl, pngPath := pngPath,
           selector := normalizeSelector opts.selector,
           width := opts.width, height := opts.height, scale := opts.scale,
           timeout := opts.timeout, waitUntil := opts.wait },
         { pngPath := pngPath, pptxPath := pptxPath, widescreen := true })

/-- Follows the wording of the spec for the default intermediate image path
("extension replaced with image extension", "same stem, `.png` extension"):
the output slide path with everything from its last dot on replaced by
`.png`; a path without a dot gets `.png` appended. -/
def specSameStemPng (outPath : String) : String :=
  match outPath.data.reverse.findIdx? (fun c => c = '.') with
  | none => outPath ++ ".png"
  | some i => String.mk (outPath.data.take (outPath.data.length - i - 1)) ++ ".png"

example : stripPptxSuffix "/w/slide.pptx" = "/w/slide" := by decide
example : stripPptxSuffix "/w/slide.PpTx" = "/w/slide" := by decide
example : stripPptxSuffix "/w/deck.pres" = "/w/deck.pres" := by decide
example : specSameStemPng "/w/deck.pres" = "/w/deck.png" := by decide
example : specSameStemPng "/w/slide.pptx" = "/w/slide.png" := by decide
example : normalizeSelector " " = none := by decide
example : normalizeSelector " div " = some "div" := by decide

/-! ### Helper lemmas -/

/-- The test `listInfix` decides the infix relation. -/
theorem listInfix_iff (needle hay : List Char) :
    listInfix needle hay = true ↔ needle <:+: hay := by
  induction hay with
  | nil => simp [ listInfix, List.isEmpty_iff]
  | cons c t ih => simp [ listInfix, List.infix_cons_iff, ih]

/-- A string contains its own suffix. -/
theorem strIncludes_append_right (pre s : String) : strIncludes (pre ++ s) s = true := by
  unfold strIncludes
  rw [listInfix_iff, String.data_append]
  exact List.IsSuffix.isInfix (List.suffix_append _ _)

/-- A string starts with its own prefix. -/
theorem strStartsWith_append (p s : String) : strStartsWith (p ++ s) p = true := by
  unfold strStartsWith
  rw [String.data_append]
  simp

/-! ### Claims -/

/-- C4 (confirmed): for every string `s` (and for `null`), `isHttpUrl`
returns `true` iff `s` parses as an absolute URL whose scheme is `http` or
`https`; a parse failure or any other scheme yields `false`, `null` yields
`false`, and being a total Lean function it never raises. -/
theorem isHttpUrl_classifies :
    (∀ s : String, isHttpUrl s = true ↔
        ∃ u, parseURL s = some u ∧ (u.protocol = "http:" ∨ u.protocol = "https:")) ∧
    isHttpUrlNullable none = false := by
  refine ⟨fun s => ?_, by decide⟩
  unfold isHttpUrl
  cases h : parseURL s with
  | none => simp
  | some u => simp [h]

/-- C5 (confirmed): `toPageUrl` returns an http(s) input unchanged; otherwise
it resolves the input to an absolute path and, when the injected probe
reports the path present, returns a `file://` URI built from that absolute
path, and when the probe reports it absent, fails with an error whose
message contains the resolved absolute path. -/
theorem toPageUrl_resolution (input cwd : String) (probe : String → Bool) :
    (isHttpUrl input = true → toPageUrl input probe cwd = .ok input) ∧
    (isHttpUrl input = false → probe (pathResolve cwd input) = true →
        toPageUrl input probe cwd = .ok (pathToFileURL (pathResolve cwd input)) ∧
        strStartsWith (pathToFileURL (pathResolve cwd input)) "file://" = true) ∧
    (isHttpUrl input = false → probe (pathResolve cwd input) = false →
        toPageUrl input probe cwd
            = .error (mkError ("HTML file not found: " ++ pathResolve cwd input)) ∧
        strIncludes (mkError ("HTML file not found: " ++ pathResolve cwd input)).message
            (pathResolve cwd input) = true) := by
  refine ⟨fun h => ?_, fun h hp => ⟨?_, ?_⟩, fun h hp => ⟨?_, ?_⟩⟩
  · simp [toPageUrl, h]
  · simp [toPageUrl, h, hp]
  · exact strStartsWith_append "file://" (pathResolve cwd input)
  · simp [toPageUrl, h, hp]
  · exact strIncludes_append_right "HTML file not found: " (pathResolve cwd input)

/-- Witness for C5: concrete evaluations of the three branches. -/
theorem toPageUrl_resolution_witness :
    (toPageUrl "http://example.com" (fun _ => true) "/w" = .ok "http://example.com") ∧
    (toPageUrl "page.html" (fun _ => true) "/w" = .ok "file:///w/page.html" ∧
        strStartsWith "file:///w/page.html" "file://" = true) ∧
    (toPageUrl "page.html" (fun _ => false) "/w"
        = .error (mkError "HTML file not found: /w/page.html") ∧
        strIncludes (mkError "HTML file not found: /w/page.html").message "/w/page.html"
            = true) :=
  ⟨(toPageUrl_resolution "http://example.com" "/w" (fun _ => true)).1 (by decide),
   (toPageUrl_resolution "page.html" "/w" (fun _ => true)).2.1 (by decide) rfl,
   (toPageUrl_resolution "page.html" "/w" (fun _ => false)).2.2 (by decide) rfl⟩

/-- C10 (confirmed): whenever the request construction of the entry point reaches
the packaging stage, the packaging request it hands to `pngToPptx` has
`widescreen = true`, whatever the command-line options were
(`src/index.js:112` hardcodes it). -/
theorem mainRequests_always_widescreen (input cwd : String) (opts : CliOpts)
    (probe : String → Bool) (req : CaptureRequest) (preq : PackagingRequest)
    (h : mainRequests input opts probe cwd = .ok (req, preq)) :
    preq.widescreen = true := by
  unfold mainRequests at h
  cases htp : toPageUrl input probe cwd with
  | error e => rw [htp] at h; exact absurd h (by simp)
  | ok pageUrl =>
    rw [htp] at h
    simp only [Except.ok.injEq, Prod.mk.injEq] at h
    rw [← h.2]

/-- Witness for C10: a concrete invocation with default options. -/
theorem mainRequests_always_widescreen_witness :
    (PackagingRequest.mk "/w/slide.png" "/w/slide.pptx" true).widescreen = true :=
  mainRequests_always_widescreen "http://example.com" "/w"
    ⟨"slide.pptx", none, "", 960, 540, 2, 30000, "networkidle"⟩ (fun _ => true)
    ⟨"http://example.com", "/w/slide.png", none, 960, 540, 2, 30000, "networkidle"⟩
    ⟨"/w/slide.png", "/w/slide.pptx", true⟩ rfl

/-- The `try` body never calls `browser.close()` (it sits in the `finally`). -/
theorem renderTryBody_count_close (req : CaptureRequest) (env : CaptureEnv) :
    (renderTryBody req env).2.count CapEvent.close = 0 := by
  unfold renderTryBody renderFullPage
  cases env.gotoResult with
  | error e => simp
  | ok _ =>
    cases req.selector with
    | none => simp
    | some sel =>
      by_cases hs : sel = ""
      · simp [hs]
      · by_cases hc : env.locatorCount sel = 0
        · simp [hs, hc]
        · simp [hs, hc]

/-- A full-page capture request over a healthy browser. -/
def reqHttp : CaptureRequest :=
  ⟨"http://example.com/", "/w/out.png", none, 960, 540, 2, 30000, "networkidle"⟩

/-- A capture request restricted to the selector `.slide`. -/
def reqSel : CaptureRequest :=
  ⟨"http://example.com/", "/w/out.png", some ".slide", 960, 540, 2, 30000, "networkidle"⟩

/-- A browser environment in which every call succeeds and the selector
matches one element. -/
def envAllOk : CaptureEnv := ⟨.ok (), .ok (), .ok (), fun _ => 1, .ok (), .ok ()⟩

/-- A browser environment in which `browser.newPage` rejects. -/
def envNewPageFails : CaptureEnv :=
  ⟨.ok (), .error (mkError "browser.newPage: failed"), .ok (), fun _ => 1, .ok (), .ok ()⟩

/-- A browser environment in which the selector matches zero elements. -/
def envSelZero : CaptureEnv := ⟨.ok (), .ok (), .ok (), fun _ => 0, .ok (), .ok ()⟩

/-- Counterexample to C1 as stated: when opening the page context
(`browser.newPage`, `src/index.js:30`, placed before the `try`) fails, the
error propagates out of `renderToPng` with `browser.close()` never invoked —
not "exactly once on every exit path". -/
theorem renderToPng_unclosed_on_newPage_failure :
    (renderToPng reqHttp envNewPageFails).1 = .error (mkError "browser.newPage: failed") ∧
    (renderToPng reqHttp envNewPageFails).2.count CapEvent.close = 0 :=
  ⟨rfl, rfl⟩

/-- C1 (corrected): once the page context has been opened successfully,
`browser.close()` is invoked exactly once on every exit path — whatever the
outcomes of navigation, the settle wait, selector matching and the
screenshot — while a launch that succeeded followed by a failing
`newPage` exits with the browser never closed. -/
theorem renderToPng_close_discipline (req : CaptureRequest) (env : CaptureEnv) :
    (env.launchResult = .ok () → env.newPageResult = .ok () →
        (renderToPng req env).2.count CapEvent.close = 1) ∧
    (env.launchResult = .ok () → (∃ e, env.newPageResult = .error e) →
        (renderToPng req env).2.count CapEvent.close = 0) := by
  constructor
  · intro hl hp
    unfold renderToPng
    rw [hl, hp]
    simp [renderTryBody_count_close req env]
  · rintro hl ⟨e, hp⟩
    unfold renderToPng
    rw [hl, hp]
    simp
/-- Witness for C1: both clauses evaluated on concrete environments. -/
theorem renderToPng_close_discipline_witness :
    (renderToPng reqHttp envAllOk).2.count CapEvent.close = 1 ∧
    (renderToPng reqHttp envNewPageFails).2.count CapEvent.close = 0 :=
  ⟨(renderToPng_close_discipline reqHttp envAllOk).1 rfl rfl,
   (renderToPng_close_discipline reqHttp envNewPageFails).2 rfl
      ⟨mkError "browser.newPage: failed", rfl⟩⟩

/-- C6 (confirmed): with a selector set, a zero-element match makes capture
fail with a `Selector not found` error containing the selector text, with no
screenshot call made (so no image file written); a nonzero match makes the
one and only screenshot call `loc.first().screenshot({path})` on the first
matching element, targeting the image path of the request. -/
theorem renderToPng_selector_cases (req : CaptureRequest) (env : CaptureEnv) (sel : String)
    (hsel : req.selector = some sel) (hne : sel ≠ "")
    (hl : env.launchResult = .ok ()) (hp : env.newPageResult = .ok ())
    (hg : env.gotoResult = .ok ()) :
    (env.locatorCount sel = 0 →
        (renderToPng req env).1 = .error (mkError ("Selector not found: " ++ sel)) ∧
        strIncludes (mkError ("Selector not found: " ++ sel)).message sel = true ∧
        (renderToPng req env).2.filter isScreenshotEvent = []) ∧
    (env.locatorCount sel ≠ 0 →
        (renderToPng req env).2.filter isScreenshotEvent
            = [CapEvent.screenshotFirst sel req.pngPath]) := by
  constructor
  · intro hc
    refine ⟨?_, strIncludes_append_right "Selector not found: " sel, ?_⟩
    · unfold renderToPng renderTryBody
      rw [hl, hp, hg, hsel]
      simp [hne, hc]
    · unfold renderToPng renderTryBody
      rw [hl, hp, hg, hsel]
      simp [hne, hc, isScreenshotEvent]
  · intro hc
    unfold renderToPng renderTryBody
    rw [hl, hp, hg, hsel]
    simp [hne, hc, isScreenshotEvent]

/-- Witness for C6: the selector `.slide` against a page with zero matches
and against a page with one match. -/
theorem renderToPng_selector_cases_witness :
    ((renderToPng reqSel envSelZero).1 = .error (mkError "Selector not found: .slide") ∧
     strIncludes (mkError "Selector not found: .slide").message ".slide" = true ∧
     (renderToPng reqSel envSelZero).2.filter isScreenshotEvent = []) ∧
    (renderToPng reqSel envAllOk).2.filter isScreenshotEvent
        = [CapEvent.screenshotFirst ".slide" "/w/out.png"] :=
  ⟨(renderToPng_selector_cases reqSel envSelZero ".slide" rfl (by decide) rfl rfl rfl).1 rfl,
   (renderToPng_selector_cases reqSel envAllOk ".slide" rfl (by decide) rfl rfl rfl).2
      (by decide)⟩

/-- Counterexample to C2 as stated: with `useWidescreenLayout = false` the
image is still added at 13.333 × 7.5 (`src/index.js:74` hardcodes the size),
which is not the default canvas size of the document (10 × 5.625, the pptxgenjs
default layout). -/
theorem pngToPptx_nonwidescreen_image_size :
    (pngToPptx "/w/a.png" "/w/a.pptx" false).filter isAddImage
        = [PptxEvent.addImage "/w/a.png" 0 0 widescreenWidth widescreenHeight] ∧
    widescreenWidth ≠ defaultCanvasWidth ∧ widescreenHeight ≠ defaultCanvasHeight := by
  refine ⟨rfl, ?_, ?_⟩ <;>
    norm_num [widescreenWidth, widescreenHeight, defaultCanvasWidth, defaultCanvasHeight]

/-- C2 (corrected): every packaging run adds exactly one slide and exactly
one image, anchored at x = 0, y = 0, of width 13.333 and height 7.5
regardless of `useWidescreenLayout`; these equal the canvas dimensions only
in the widescreen case. -/
theorem pngToPptx_one_slide_one_image (png pptx : String) (ws : Bool) :
    (pngToPptx png pptx ws).filter isAddSlide = [PptxEvent.addSlide] ∧
    (pngToPptx png pptx ws).filter isAddImage
        = [PptxEvent.addImage png 0 0 widescreenWidth widescreenHeight] := by
  cases ws <;> constructor <;> rfl

/-- C7 (confirmed): with `useWidescreenLayout = true` the packager defines
the named canvas `WIDE_16x9` of width 13.333 and height 7.5 and selects it
as the active layout, both before the slide and its image are added (the
trace below lists the calls in order); with `useWidescreenLayout = false`
`defineLayout` is never called. -/
theorem pngToPptx_layout_discipline (png pptx : String) :
    pngToPptx png pptx true
        = [PptxEvent.defineLayout "WIDE_16x9" widescreenWidth widescreenHeight,
           PptxEvent.setLayout "WIDE_16x9",
           PptxEvent.addSlide,
           PptxEvent.addImage png 0 0 widescreenWidth widescreenHeight,
           PptxEvent.writeFile pptx] ∧
    (pngToPptx png pptx false).filter isDefineLayout = [] := by
  constructor <;> rfl

/-- Counterexample to C3 as stated: on a rule-less message that starts with
`"error: "` the fallback does not return the raw message capitalized — it
first strips the `"error: "` prefix (`src/index.js:63`). -/
theorem formatError_fallback_strips_prefix :
    formatError (mkError "error: boom") = "Error: Boom" ∧
    formatError (mkError "error: boom")
        ≠ "Error: " ++ capitalizeFirst (effMessage (mkError "error: boom")) := by
  constructor
  · rfl
  · decide

/-- C3 (corrected): `formatError` is a total function (never raises) applying
the seven pattern rules in their fixed order with first match winning; when
no rule matches it returns the raw message — with a leading `"error: "`
prefix stripped when present — first letter capitalized, behind an
`"Error:"` prefix. -/
theorem formatError_rule_order (e : JsError) :
    (strIncludes (effMessage e) "HTML file not found" = true →
        formatError e = "Error: The HTML file does not exist. Please check the file path.") ∧
    (strIncludes (effMessage e) "HTML file not found" = false →
     strIncludes (effMessage e) "Selector not found" = true →
        formatError e = "Error: The CSS selector was not found. Please check your --selector.") ∧
    (strIncludes (effMessage e) "HTML file not found" = false →
     strIncludes (effMessage e) "Selector not found" = false →
     e.name = "TimeoutError" →
        formatError e = "Error: The page took too long to load. Please try a larger --timeout.") ∧
    (strIncludes (effMessage e) "HTML file not found" = false →
     strIncludes (effMessage e) "Selector not found" = false →
     e.name ≠ "TimeoutError" →
     e.code = some "ENOENT" →
        formatError e
          = "Error: Could not save the file. Please check the folder path and your permissions.") ∧
    (strIncludes (effMessage e) "HTML file not found" = false →
     strIncludes (effMessage e) "Selector not found" = false →
     e.name ≠ "TimeoutError" →
     e.code ≠ some "ENOENT" →
     strIncludes (effMessage e) "net::ERR_" = true →
        formatError e
          = "Error: The URL is not valid or the website could not be reached. Please check your input.") ∧
    (strIncludes (effMessage e) "HTML file not found" = false →
     strIncludes (effMessage e) "Selector not found" = false →
     e.name ≠ "TimeoutError" →
     e.code ≠ some "ENOENT" →
     strIncludes (effMessage e) "net::ERR_" = false →
     strIncludes (effMessage e) "missing required argument 'input'" = true →
        formatError e = "Error: Please provide an HTML file path or URL.") ∧
    (strIncludes (effMessage e) "HTML file not found" = false →
     strIncludes (effMessage e) "Selector not found" = false →
     e.name ≠ "TimeoutError" →
     e.code ≠ some "ENOENT" →
     strIncludes (effMessage e) "net::ERR_" = false →
     strIncludes (effMessage e) "missing required argument 'input'" = false →
     strIncludes (effMessage e) "waitUntil: expected one of" = true →
        formatError e
          = "Error: Invalid wait strategy. Please use one of: load, domcontentloaded, networkidle, commit.") ∧
    (strIncludes (effMessage e) "HTML file not found" = false →
     strIncludes (effMessage e) "Selector not found" = false →
     e.name ≠ "TimeoutError" →
     e.code ≠ some "ENOENT" →
     strIncludes (effMessage e) "net::ERR_" = false →
     strIncludes (effMessage e) "missing required argument 'input'" = false →
     strIncludes (effMessage e) "waitUntil: expected one of" = false →
        formatError e = "Error: " ++ capitalizeFirst
          (if strStartsWith (effMessage e) "error: " then strDrop (effMessage e) 7
           else effMessage e)) := by
  refine ⟨?_, ?_, ?_, ?_, ?_, ?_, ?_, ?_⟩ <;>
    { intros; simp only [formatError]; simp [*] }

/-- Witness for C3: one concrete error per rule, plus the fallback. -/
theorem formatError_rule_order_witness :
    formatError (mkError "HTML file not found: /x/in.html")
        = "Error: The HTML file does not exist. Please check the file path." ∧
    formatError (mkError "Selector not found: .deck")
        = "Error: The CSS selector was not found. Please check your --selector." ∧
    formatError ⟨"Timeout 30000ms exceeded.", "TimeoutError", none, ""⟩
        = "Error: The page took too long to load. Please try a larger --timeout." ∧
    formatError ⟨"no such file or directory", "Error", some "ENOENT", ""⟩
        = "Error: Could not save the file. Please check the folder path and your permissions." ∧
    formatError (mkError "page.goto: net::ERR_NAME_NOT_RESOLVED")
        = "Error: The URL is not valid or the website could not be reached. Please check your input." ∧
    formatError (mkError "error: missing required argument 'input'")
        = "Error: Please provide an HTML file path or URL." ∧
    formatError (mkError "page.goto: waitUntil: expected one of (load|domcontentloaded|networkidle|commit)")
        = "Error: Invalid wait strategy. Please use one of: load, domcontentloaded, networkidle, commit." ∧
    formatError (mkError "something went wrong")
        = "Error: Something went wrong" :=
  ⟨(formatError_rule_order (mkError "HTML file not found: /x/in.html")).1
      (by decide),
   (formatError_rule_order (mkError "Selector not found: .deck")).2.1
      (by decide) (by decide),
   (formatError_rule_order ⟨"Timeout 30000ms exceeded.", "TimeoutError", none, ""⟩).2.2.1
      (by decide) (by decide) rfl,
   (formatError_rule_order ⟨"no such file or directory", "Error", some "ENOENT", ""⟩).2.2.2.1
      (by decide) (by decide) (by decide) rfl,
   (formatError_rule_order (mkError "page.goto: net::ERR_NAME_NOT_RESOLVED")).2.2.2.2.1
      (by decide) (by decide) (by decide) (by decide) (by decide),
   (formatError_rule_order (mkError "error: missing required argument 'input'")).2.2.2.2.2.1
      (by decide) (by decide) (by decide) (by decide) (by decide) (by decide),
   (formatError_rule_order
      (mkError "page.goto: waitUntil: expected one of (load|domcontentloaded|networkidle|commit)")).2.2.2.2.2.2.1
      (by decide) (by decide) (by decide) (by decide) (by decide) (by decide) (by decide),
   (formatError_rule_order (mkError "something went wrong")).2.2.2.2.2.2.2
      (by decide) (by decide) (by decide) (by decide) (by decide) (by decide) (by decide)⟩

/-- Counterexample to C8 as stated: with `--png` absent and an output path
ending in an extension other than `.pptx`, the code appends `.png` to the
whole name (`src/index.js:97` only strips a trailing `.pptx`), instead of
replacing the extension as the same-stem reading of the claim requires. -/
theorem mainRequests_foreign_extension_appends :
    mainRequests "http://example.com"
        ⟨"deck.pres", none, "", 960, 540, 2, 30000, "networkidle"⟩ (fun _ => true) "/w"
      = .ok (⟨"http://example.com", "/w/deck.pres.png", none, 960, 540, 2, 30000,
              "networkidle"⟩,
             ⟨"/w/deck.pres.png", "/w/deck.pres", true⟩) ∧
    specSameStemPng (pathResolve "/w" "deck.pres") = "/w/deck.png" ∧
    ("/w/deck.pres.png" : String) ≠ "/w/deck.png" :=
  ⟨rfl, rfl, by decide⟩

/-- C8 (corrected): with `--png` given a non-empty value, the intermediate
image path is the supplied path resolved to absolute; with `--png` absent or
equal to the empty string (which is falsy, so the ternary at
`src/index.js:97` takes its derive branch) it is the resolved output path
with a trailing `.pptx` (case-insensitive) stripped and `.png` appended —
which replaces the extension whenever the output path does end in `.pptx`,
and otherwise appends `.png` to the full name. -/
theorem mainRequests_png_derivation (input cwd : String) (opts : CliOpts)
    (probe : String → Bool) (req : CaptureRequest) (preq : PackagingRequest)
    (h : mainRequests input opts probe cwd = .ok (req, preq)) :
    (∀ p, opts.png = some p → p ≠ "" → preq.pngPath = pathResolve cwd p) ∧
    (opts.png = none ∨ opts.png = some "" →
        preq.pngPath = stripPptxSuffix (pathResolve cwd opts.out) ++ ".png" ∧
        (strEndsWith (strToLower (pathResolve cwd opts.out)) ".pptx" = true →
            preq.pngPath = strDropRight (pathResolve cwd opts.out) 5 ++ ".png")) := by
  unfold mainRequests at h
  cases htp : toPageUrl input probe cwd with
  | error e => rw [htp] at h; exact absurd h (by simp)
  | ok pageUrl =>
    rw [htp] at h
    simp only [Except.ok.injEq, Prod.mk.injEq] at h
    obtain ⟨hreq, hpreq⟩ := h
    constructor
    · intro p hp hne
      rw [← hpreq]
      simp [hp, hne]
    · intro hp
      refine ⟨?_, fun hend => ?_⟩
      · rw [← hpreq]; rcases hp with hp | hp <;> simp [hp]
      · rw [← hpreq]; rcases hp with hp | hp <;> simp [hp, stripPptxSuffix, hend]

/-- Witness for C8: an explicit `--png shot.png`, the default derivation
from `slide.pptx`, and the falsy `--png` value `""`, which also derives. -/
theorem mainRequests_png_derivation_witness :
    (PackagingRequest.mk "/w/shot.png" "/w/slide.pptx" true).pngPath
        = pathResolve "/w" "shot.png" ∧
    (PackagingRequest.mk "/w/slide.png" "/w/slide.pptx" true).pngPath
        = strDropRight (pathResolve "/w" "slide.pptx") 5 ++ ".png" ∧
    (PackagingRequest.mk "/w/slide.png" "/w/slide.pptx" true).pngPath
        = stripPptxSuffix (pathResolve "/w" "slide.pptx") ++ ".png" :=
  ⟨(mainRequests_png_derivation "http://example.com" "/w"
      ⟨"slide.pptx", some "shot.png", "", 960, 540, 2, 30000, "networkidle"⟩ (fun _ => true)
      ⟨"http://example.com", "/w/shot.png", none, 960, 540, 2, 30000, "networkidle"⟩
      ⟨"/w/shot.png", "/w/slide.pptx", true⟩ rfl).1 "shot.png" rfl (by decide),
   ((mainRequests_png_derivation "http://example.com" "/w"
      ⟨"slide.pptx", none, "", 960, 540, 2, 30000, "networkidle"⟩ (fun _ => true)
      ⟨"http://example.com", "/w/slide.png", none, 960, 540, 2, 30000, "networkidle"⟩
      ⟨"/w/slide.png", "/w/slide.pptx", true⟩ rfl).2 (Or.inl rfl)).2 (by decide),
   ((mainRequests_png_derivation "http://example.com" "/w"
      ⟨"slide.pptx", some "", "", 960, 540, 2, 30000, "networkidle"⟩ (fun _ => true)
      ⟨"http://example.com", "/w/slide.png", none, 960, 540, 2, 30000, "networkidle"⟩
      ⟨"/w/slide.png", "/w/slide.pptx", true⟩ rfl).2 (Or.inr rfl)).1⟩

/-- Counterexample to C9 as stated: a selector with non-whitespace content is
not passed through unchanged — `" div "` reaches the capture request as
`"div"` (`src/index.js:99` trims it). -/
theorem mainRequests_selector_is_trimmed :
    mainRequests "http://example.com"
        ⟨"slide.pptx", none, " div ", 960, 540, 2, 30000, "networkidle"⟩ (fun _ => true) "/w"
      = .ok (⟨"http://example.com", "/w/slide.png", some "div", 960, 540, 2, 30000,
              "networkidle"⟩,
             ⟨"/w/slide.png", "/w/slide.pptx", true⟩) ∧
    some "div" ≠ some " div " :=
  ⟨rfl, by decide⟩

/-- C9 (corrected): an empty or all-whitespace `--selector` value yields an
unset `elementSelector` in the capture request (full-page capture); a value
with non-whitespace content is passed set, after trimming its surrounding
whitespace. -/
theorem mainRequests_selector_normalization (input cwd : String) (opts : CliOpts)
    (probe : String → Bool) (req : CaptureRequest) (preq : PackagingRequest)
    (h : mainRequests input opts probe cwd = .ok (req, preq)) :
    (strTrim opts.selector = "" → req.selector = none) ∧
    (strTrim opts.selector ≠ "" → req.selector = some (strTrim opts.selector)) := by
  unfold mainRequests at h
  cases htp : toPageUrl input probe cwd with
  | error e => rw [htp] at h; exact absurd h (by simp)
  | ok pageUrl =>
    rw [htp] at h
    simp only [Except.ok.injEq, Prod.mk.injEq] at h
    obtain ⟨hreq, hpreq⟩ := h
    constructor
    · intro ht; rw [← hreq]; simp [normalizeSelector, ht]
    · intro hne; rw [← hreq]; simp [normalizeSelector, hne]

/-- Witness for C9: an all-whitespace selector and a padded selector. -/
theorem mainRequests_selector_normalization_witness :
    (CaptureRequest.mk "http://example.com" "/w/slide.png" none 960 540 2 30000
        "networkidle").selector = none ∧
    (CaptureRequest.mk "http://example.com" "/w/slide.png" (some "div") 960 540 2 30000
        "networkidle").selector = some (strTrim " div ") :=
  ⟨(mainRequests_selector_normalization "http://example.com" "/w"
      ⟨"slide.pptx", none, "  ", 960, 540, 2, 30000, "networkidle"⟩ (fun _ => true)
      ⟨"http://example.com", "/w/slide.png", none, 960, 540, 2, 30000, "networkidle"⟩
      ⟨"/w/slide.png", "/w/slide.pptx", true⟩ rfl).1 rfl,
   (mainRequests_selector_normalization "http://example.com" "/w"
      ⟨"slide.pptx", none, " div ", 960, 540, 2, 30000, "networkidle"⟩ (fun _ => true)
      ⟨"http://example.com", "/w/slide.png", some "div", 960, 540, 2, 30000, "networkidle"⟩
      ⟨"/w/slide.png", "/w/slide.pptx", true⟩ rfl).2 (by decide)⟩
